import Mathlib

/-!
Shallow embedding of the Intelligent-database backend core
(`src/backend/app`), covering the SQL validator/rewriter, the query
orchestrator and its audit history, the metadata cache, the adapter
registry, and the PostgreSQL metadata extraction.

External libraries (sqlglot, asyncpg, aiomysql, SQLite/SQLModel) are
modelled at their interface boundary: sqlglot is a parameter record of
parse/serialize functions over an expression-tree model, driver calls are
outcome-valued parameters, and the SQLite tables are in-memory lists with
the exact query/update logic of the services re-expressed over them.
Python exceptions are modelled with `Except`.
-/

namespace IDB

/-- Database type, from `app/models/database.py` (`DatabaseType`). -/
inductive DatabaseType where
  | postgresql
  | mysql
deriving DecidableEq, Repr

/-- The string value of the enum member. -/
def DatabaseType.value : DatabaseType → String
  | .postgresql => "postgresql"
  | .mysql => "mysql"

/-- Query source, from `app/models/query.py` (`QuerySource`). -/
inductive QuerySource where
  | manual
  | natural_language
deriving DecidableEq, Repr

/-- The sqlglot dialect chosen for a database type, as computed in
`validate_sql` and `add_limit_if_missing`:
`"postgres" if db_type == DatabaseType.POSTGRESQL else "mysql"`. -/
def dialectName : DatabaseType → String
  | .postgresql => "postgres"
  | .mysql => "mysql"

/-- Constructor kinds of sqlglot expression nodes, at the granularity the
validator observes: `exp.Select`, `exp.Limit`, the non-SELECT statement
roots it rejects, and everything else. -/
inductive NodeKind where
  | select
  | limit
  | insert
  | update
  | delete
  | ddl
  | other
deriving DecidableEq, Repr

mutual
/-- Model of a sqlglot expression tree: a node has a constructor kind, a
numeric literal (used as the bound when the node is a Limit), and its
argument subtrees. -/
inductive SqlAst where
  | node : NodeKind → Option Nat → SqlAstList → SqlAst

/-- Argument list of a sqlglot expression node. -/
inductive SqlAstList where
  | nil : SqlAstList
  | cons : SqlAst → SqlAstList → SqlAstList
end

/-- Root kind of an expression tree. -/
def SqlAst.kind : SqlAst → NodeKind
  | .node k _ _ => k

/-- Whether the parsed root is a SELECT: `isinstance(parsed, exp.Select)`. -/
def SqlAst.isSelect (a : SqlAst) : Bool := a.kind == NodeKind.select

mutual
/-- Whether a Limit node occurs anywhere in the tree:
`parsed.find(exp.Limit)` succeeding. -/
def SqlAst.hasLimit : SqlAst → Bool
  | .node k _ cs => k == NodeKind.limit || cs.hasLimit

/-- Whether a Limit node occurs in any tree of the list. -/
def SqlAstList.hasLimit : SqlAstList → Bool
  | .nil => false
  | .cons a l => a.hasLimit || l.hasLimit
end

mutual
/-- Number of Limit nodes in the tree. -/
def SqlAst.countLimit : SqlAst → Nat
  | .node k _ cs => (if k == NodeKind.limit then 1 else 0) + cs.countLimit

/-- Number of Limit nodes in the trees of the list. -/
def SqlAstList.countLimit : SqlAstList → Nat
  | .nil => 0
  | .cons a l => a.countLimit + l.countLimit
end

mutual
/-- Bounds of the Limit nodes in the tree, in prefix order. -/
def SqlAst.limitBounds : SqlAst → List Nat
  | .node k b cs =>
      (if k == NodeKind.limit then b.toList else []) ++ cs.limitBounds

/-- Bounds of the Limit nodes in the trees of the list. -/
def SqlAstList.limitBounds : SqlAstList → List Nat
  | .nil => []
  | .cons a l => a.limitBounds ++ l.limitBounds
end

/-- Attach a Limit argument with the given bound to the root node:
`parsed.set("limit", exp.Limit(expression=exp.Literal.number(limit)))`. -/
def SqlAst.setLimit (n : Nat) : SqlAst → SqlAst
  | .node k b cs =>
      .node k b (.cons (.node NodeKind.limit (some n) .nil) cs)

/-- Outcome of `sqlglot.parse_one(sql, dialect=...)` as observed by the
validator's try/except blocks: a returned expression, a `None` return,
a raised `sqlglot.errors.ParseError` carrying `str(e)`, or another raised
exception carrying `str(e)`. -/
inductive ParseOutcome where
  | parsed : SqlAst → ParseOutcome
  | noneResult : ParseOutcome
  | parseError : String → ParseOutcome
  | otherError : String → ParseOutcome

/-- Interface of the sqlglot library as used by `sql_validator.py`:
`parseOne dialect sql` models `sqlglot.parse_one(sql, dialect=dialect)`,
and `toSql dialect ast` models `ast.sql(dialect=dialect)`, with `none`
standing for a raised serialization exception. -/
structure SqlGlot where
  parseOne : String → String → ParseOutcome
  toSql : String → SqlAst → Option String

/-- Embedding of `validate_sql` (`app/services/sql_validator.py`, lines
14-42): parse with the dialect of the database type; `None` result, a
non-Select root, a parse error, and any other exception each produce the
corresponding `(False, message)` pair; a Select root produces
`(True, None)`. -/
def validate_sql (g : SqlGlot) (sql : String) (db_type : DatabaseType) :
    Bool × Option String :=
  let dialect := dialectName db_type
  match g.parseOne dialect sql with
  | .noneResult => (false, some "Failed to parse SQL query")
  | .parsed parsed =>
      if parsed.isSelect then (true, none)
      else (false, some "Only SELECT statements are allowed")
  | .parseError e => (false, some ("SQL parse error: " ++ e))
  | .otherError e => (false, some ("SQL validation error: " ++ e))

/-- Embedding of `add_limit_if_missing` (`app/services/sql_validator.py`,
lines 45-74): parse; on a `None` result or any exception return the
original SQL; if a Limit node is found anywhere in the tree return the
original SQL; otherwise set a Limit with the given bound on the root and
re-serialize, falling back to the original SQL when serialization
raises. -/
def add_limit_if_missing (g : SqlGlot) (sql : String) (limit : Nat)
    (db_type : DatabaseType) : String :=
  let dialect := dialectName db_type
  match g.parseOne dialect sql with
  | .noneResult => sql
  | .parseError _ => sql
  | .otherError _ => sql
  | .parsed parsed =>
      if parsed.hasLimit then sql
      else
        match g.toSql dialect (parsed.setLimit limit) with
        | some out => out
        | none => sql

/-- Embedding of `validate_and_transform_sql`
(`app/services/sql_validator.py`, lines 77-96): raising
`SqlValidationError(error_message or "Invalid SQL query")` is modelled as
`Except.error`; Python `or` replaces both `None` and the empty string by
the default. -/
def validate_and_transform_sql (g : SqlGlot) (sql : String) (limit : Nat)
    (db_type : DatabaseType) : Except String String :=
  match validate_sql g sql db_type with
  | (true, _) => .ok (add_limit_if_missing g sql limit db_type)
  | (false, error_message) =>
      .error (match error_message with
        | some m => if m = "" then "Invalid SQL query" else m
        | none => "Invalid SQL query")

mutual
/-- A tree in which `find(exp.Limit)` fails contains zero Limit nodes. -/
theorem SqlAst.countLimit_eq_zero (a : SqlAst) (h : a.hasLimit = false) :
    a.countLimit = 0 :=
  match a with
  | .node k b cs => by
      simp [SqlAst.hasLimit, Bool.or_eq_false_iff] at h
      simp [SqlAst.countLimit, h.1, SqlAstList.countLimitList_eq_zero cs h.2]

/-- A list of trees with no Limit node contains zero Limit nodes. -/
theorem SqlAstList.countLimitList_eq_zero (l : SqlAstList) (h : l.hasLimit = false) :
    l.countLimit = 0 :=
  match l with
  | .nil => rfl
  | .cons a t => by
      simp [SqlAstList.hasLimit, Bool.or_eq_false_iff] at h
      simp [SqlAstList.countLimit, SqlAst.countLimit_eq_zero a h.1,
        SqlAstList.countLimitList_eq_zero t h.2]
end

mutual
/-- A tree in which `find(exp.Limit)` fails has no Limit bounds. -/
theorem SqlAst.limitBounds_eq_nil (a : SqlAst) (h : a.hasLimit = false) :
    a.limitBounds = [] :=
  match a with
  | .node k b cs => by
      simp [SqlAst.hasLimit, Bool.or_eq_false_iff] at h
      simp [SqlAst.limitBounds, h.1, SqlAstList.limitBoundsList_eq_nil cs h.2]

/-- A list of trees with no Limit node has no Limit bounds. -/
theorem SqlAstList.limitBoundsList_eq_nil (l : SqlAstList) (h : l.hasLimit = false) :
    l.limitBounds = [] :=
  match l with
  | .nil => rfl
  | .cons a t => by
      simp [SqlAstList.hasLimit, Bool.or_eq_false_iff] at h
      simp [SqlAstList.limitBounds, SqlAst.limitBounds_eq_nil a h.1,
        SqlAstList.limitBoundsList_eq_nil t h.2]
end

/-- Setting a Limit on the root makes `find(exp.Limit)` succeed. -/
theorem SqlAst.hasLimit_setLimit (a : SqlAst) (n : Nat) :
    (a.setLimit n).hasLimit = true := by
  cases a with
  | node k b cs =>
      simp [SqlAst.setLimit, SqlAst.hasLimit, SqlAstList.hasLimit]

/-- Setting a Limit on the root adds exactly one Limit node. -/
theorem SqlAst.countLimit_setLimit (a : SqlAst) (n : Nat) :
    (a.setLimit n).countLimit = 1 + a.countLimit := by
  cases a with
  | node k b cs =>
      simp [SqlAst.setLimit, SqlAst.countLimit, SqlAstList.countLimit]
      omega

/-- Setting a Limit with bound `n` on a limit-free tree yields Limit
bounds `[n]`. -/
theorem SqlAst.limitBounds_setLimit (a : SqlAst) (n : Nat)
    (h : a.hasLimit = false) : (a.setLimit n).limitBounds = [n] := by
  cases a with
  | node k b cs =>
      simp [SqlAst.hasLimit, Bool.or_eq_false_iff] at h
      simp [SqlAst.setLimit, SqlAst.limitBounds, SqlAstList.limitBounds,
        h.1, Option.toList, SqlAstList.limitBoundsList_eq_nil cs h.2]

/-- Parse tree of the witness query `SELECT * FROM users`: a Select root
with no Limit node. -/
def astUsers : SqlAst := .node .select none .nil

/-- Parse tree of `SELECT * FROM users LIMIT 1000`: the same Select root
with a Limit argument of bound 1000. -/
def astUsersLimited : SqlAst := astUsers.setLimit 1000

/-- Parse tree of the witness statement `DELETE FROM users`: a Delete
root. -/
def astDeleteUsers : SqlAst := .node .delete none .nil

/-- Concrete instantiation of the sqlglot interface on the three witness
statements, used to evaluate the validator theorems on closed inputs. -/
def toyGlot : SqlGlot where
  parseOne := fun _dialect sql =>
    if sql = "SELECT * FROM users" then .parsed astUsers
    else if sql = "SELECT * FROM users LIMIT 1000" then .parsed astUsersLimited
    else if sql = "DELETE FROM users" then .parsed astDeleteUsers
    else .parseError "Invalid expression"
  toSql := fun _dialect a =>
    match a with
    | .node .select none (.cons (.node .limit (some 1000) .nil) .nil) =>
        some "SELECT * FROM users LIMIT 1000"
    | _ => none

/-- C1: for every SQL string whose parse under the target dialect yields a
root statement that is not a SELECT, `validate_sql` returns not-ok with
the error message "Only SELECT statements are allowed", for both supported
database types; for every string whose parse raises, it returns not-ok
carrying the parser's message. -/
theorem C1_validate_sql_rejects_non_select
    (g : SqlGlot) (sql : String) (db_type : DatabaseType) :
    (∀ parsed : SqlAst,
        g.parseOne (dialectName db_type) sql = .parsed parsed →
        parsed.isSelect = false →
        validate_sql g sql db_type =
          (false, some "Only SELECT statements are allowed")) ∧
    (∀ e : String,
        g.parseOne (dialectName db_type) sql = .parseError e →
        validate_sql g sql db_type =
          (false, some ("SQL parse error: " ++ e))) := by
  constructor
  · intro parsed hp hsel
    simp [validate_sql, hp, hsel]
  · intro e hp
    simp [validate_sql, hp]

/-- Witness for C1: `DELETE FROM users` parses to a Delete root under the
postgres dialect of the toy parser and is rejected with the exact
message. -/
theorem C1_witness :
    toyGlot.parseOne (dialectName .postgresql) "DELETE FROM users" =
      .parsed astDeleteUsers ∧
    astDeleteUsers.isSelect = false ∧
    validate_sql toyGlot "DELETE FROM users" .postgresql =
      (false, some "Only SELECT statements are allowed") :=
  ⟨rfl, rfl,
    (C1_validate_sql_rejects_non_select toyGlot "DELETE FROM users"
      .postgresql).1 astDeleteUsers rfl rfl⟩

/-- C2: for a SELECT statement with no LIMIT node anywhere in its tree,
`add_limit_if_missing` returns the re-serialization of the statement with
a single LIMIT of the requested bound attached (exactly one LIMIT node,
with bound N); for a SELECT that already contains a LIMIT node it returns
the input unchanged; and in both cases re-applying `add_limit_if_missing`
to the output is a no-op, given that the dialect's parser and serializer
round-trip on the rewritten statement. -/
theorem C2_ensureBounded_spec
    (g : SqlGlot) (db_type : DatabaseType) (sql out : String)
    (ast : SqlAst) (N : Nat)
    (hparse : g.parseOne (dialectName db_type) sql = .parsed ast)
    (_hsel : ast.isSelect = true) :
    (ast.hasLimit = false →
      g.toSql (dialectName db_type) (ast.setLimit N) = some out →
      g.parseOne (dialectName db_type) out = .parsed (ast.setLimit N) →
      add_limit_if_missing g sql N db_type = out ∧
      (ast.setLimit N).countLimit = 1 ∧
      (ast.setLimit N).limitBounds = [N] ∧
      add_limit_if_missing g out N db_type = out) ∧
    (ast.hasLimit = true →
      add_limit_if_missing g sql N db_type = sql ∧
      add_limit_if_missing g (add_limit_if_missing g sql N db_type) N
        db_type = sql) := by
  constructor
  · intro hnl hser hround
    refine ⟨?_, ?_, ?_, ?_⟩
    · simp [add_limit_if_missing, hparse, hnl, hser]
    · simp [SqlAst.countLimit_setLimit, SqlAst.countLimit_eq_zero ast hnl]
    · exact SqlAst.limitBounds_setLimit ast N hnl
    · simp [add_limit_if_missing, hround, SqlAst.hasLimit_setLimit]
  · intro hl
    have h1 : add_limit_if_missing g sql N db_type = sql := by
      simp [add_limit_if_missing, hparse, hl]
    exact ⟨h1, by rw [h1, h1]⟩

/-- Witness for C2: on `SELECT * FROM users` with cap 1000 the rewriter
produces `SELECT * FROM users LIMIT 1000`, whose tree has exactly one
LIMIT node of bound 1000, and re-applying the rewriter is a no-op. -/
theorem C2_witness :
    add_limit_if_missing toyGlot "SELECT * FROM users" 1000 .postgresql =
      "SELECT * FROM users LIMIT 1000" ∧
    (astUsers.setLimit 1000).countLimit = 1 ∧
    (astUsers.setLimit 1000).limitBounds = [1000] ∧
    add_limit_if_missing toyGlot "SELECT * FROM users LIMIT 1000" 1000
      .postgresql = "SELECT * FROM users LIMIT 1000" :=
  (C2_ensureBounded_spec toyGlot .postgresql "SELECT * FROM users"
    "SELECT * FROM users LIMIT 1000" astUsers 1000 rfl rfl).1 rfl rfl rfl

/-- A string with a non-empty prefix is non-empty. -/
theorem append_ne_empty (p e : String) (hp : 0 < p.length) : p ++ e ≠ "" := by
  intro h
  have h2 := congrArg String.length h
  rw [String.length_append] at h2
  have h4 : ("" : String).length = 0 := rfl
  rw [h4] at h2
  omega

/-- C9: `validate_sql` always returns a pair — either ok with no message
or not-ok with a non-empty message; `validate_and_transform_sql` raises
`SqlValidationError` exactly when `validate_sql` returns not-ok, carrying
the validator's message, and otherwise returns the result of
`add_limit_if_missing`; and `add_limit_if_missing` falls back to the
original SQL on every internal parse or re-serialization failure. -/
theorem C9_validator_totality_and_error_propagation
    (g : SqlGlot) (sql : String) (L : Nat) (db_type : DatabaseType) :
    (validate_sql g sql db_type = (true, none) ∨
      ∃ m, validate_sql g sql db_type = (false, some m) ∧ m ≠ "") ∧
    ((validate_sql g sql db_type).1 = true →
      validate_and_transform_sql g sql L db_type =
        .ok (add_limit_if_missing g sql L db_type)) ∧
    (∀ m, validate_sql g sql db_type = (false, some m) → m ≠ "" →
      validate_and_transform_sql g sql L db_type = .error m) ∧
    ((∃ s, validate_and_transform_sql g sql L db_type = .ok s) ↔
      (validate_sql g sql db_type).1 = true) ∧
    (g.parseOne (dialectName db_type) sql = .noneResult →
      add_limit_if_missing g sql L db_type = sql) ∧
    (∀ e, g.parseOne (dialectName db_type) sql = .parseError e →
      add_limit_if_missing g sql L db_type = sql) ∧
    (∀ e, g.parseOne (dialectName db_type) sql = .otherError e →
      add_limit_if_missing g sql L db_type = sql) ∧
    (∀ ast, g.parseOne (dialectName db_type) sql = .parsed ast →
      ast.hasLimit = false →
      g.toSql (dialectName db_type) (ast.setLimit L) = none →
      add_limit_if_missing g sql L db_type = sql) := by
  have hshape : validate_sql g sql db_type = (true, none) ∨
      ∃ m, validate_sql g sql db_type = (false, some m) ∧ m ≠ "" := by
    rcases hp : g.parseOne (dialectName db_type) sql with a | _ | e | e
    · cases hs : a.isSelect
      · exact Or.inr ⟨"Only SELECT statements are allowed",
          by simp [validate_sql, hp, hs], by decide⟩
      · exact Or.inl (by simp [validate_sql, hp, hs])
    · exact Or.inr ⟨"Failed to parse SQL query",
        by simp [validate_sql, hp], by decide⟩
    · exact Or.inr ⟨"SQL parse error: " ++ e,
        by simp [validate_sql, hp], append_ne_empty _ _ (by decide)⟩
    · exact Or.inr ⟨"SQL validation error: " ++ e,
        by simp [validate_sql, hp], append_ne_empty _ _ (by decide)⟩
  rcases hv : validate_sql g sql db_type with ⟨b, msg⟩
  rw [hv] at hshape
  have hok : b = true →
      validate_and_transform_sql g sql L db_type =
        .ok (add_limit_if_missing g sql L db_type) := by
    intro hb
    subst hb
    simp [validate_and_transform_sql, hv]
  refine ⟨hshape, ?_, ?_, ?_, ?_, ?_, ?_, ?_⟩
  · intro h1
    exact hok h1
  · intro m hm hne
    have hb : b = false := congrArg Prod.fst hm
    have hmsg : msg = some m := congrArg Prod.snd hm
    subst hb; subst hmsg
    simp [validate_and_transform_sql, hv, hne]
  · constructor
    · rintro ⟨s, hs⟩
      cases b
      · simp only [validate_and_transform_sql, hv] at hs
        exact Except.noConfusion hs
      · rfl
    · intro h1
      exact ⟨_, hok h1⟩
  · intro hp
    simp [add_limit_if_missing, hp]
  · intro e hp
    simp [add_limit_if_missing, hp]
  · intro e hp
    simp [add_limit_if_missing, hp]
  · intro ast hp hnl hser
    simp [add_limit_if_missing, hp, hnl, hser]

/-- Witness for C9: the toy parser's SELECT statement is transformed, and
its DELETE statement raises with the validator's message. -/
theorem C9_witness :
    validate_and_transform_sql toyGlot "SELECT * FROM users" 1000
      .postgresql =
      .ok (add_limit_if_missing toyGlot "SELECT * FROM users" 1000
        .postgresql) ∧
    validate_and_transform_sql toyGlot "DELETE FROM users" 1000
      .postgresql = .error "Only SELECT statements are allowed" :=
  ⟨(C9_validator_totality_and_error_propagation toyGlot
      "SELECT * FROM users" 1000 .postgresql).2.1 rfl,
   (C9_validator_totality_and_error_propagation toyGlot
      "DELETE FROM users" 1000 .postgresql).2.2.1
      "Only SELECT statements are allowed" rfl (by decide)⟩

/-- Column metadata schema, from `app/models/schemas.py`
(`ColumnMetadata`). -/
structure ColumnMeta where
  name : String
  dataType : String
  nullable : Bool
  primaryKey : Bool
  unique : Bool
  defaultValue : Option String
deriving DecidableEq, Repr

/-- Table/view metadata entry, from `app/models/schemas.py`
(`TableMetadata`) as built by `extract_postgres_metadata`. `rowCount`
being `none` models the `rowCount` key being absent from the dictionary
(the source only sets the key when the count is not `None`). -/
structure TableMeta where
  name : String
  type : String
  schemaName : String
  columns : List ColumnMeta
  rowCount : Option Int
deriving DecidableEq, Repr

/-- The `{tables, views}` payload returned by metadata extraction and
stored in the cache. -/
structure MetadataDict where
  tables : List TableMeta
  views : List TableMeta
deriving DecidableEq, Repr

/-- A row of the `databasemetadata` SQLite table, from
`app/models/metadata.py` (`DatabaseMetadata`). Timestamps are modelled in
whole seconds. `metadata_json` holds the payload itself: `json.dumps` and
`json.loads` are a deterministic inverse pair, so the serialized string is
identified with the dictionary it encodes. -/
structure DatabaseMetadata where
  database_name : String
  metadata_json : MetadataDict
  fetched_at : Int
  table_count : Nat
deriving DecidableEq, Repr

/-- Embedding of `DatabaseMetadata.is_stale` (`app/models/metadata.py`,
lines 22-28): stale exactly when now minus the fetch timestamp strictly
exceeds `timedelta(hours=24)`, i.e. 86400 seconds. -/
def is_stale (now fetched_at : Int) : Bool :=
  decide (now - fetched_at > 24 * 60 * 60)

/-- Embedding of `get_cached_metadata` (`app/services/metadata.py`, lines
145-166): look up the first row whose `database_name` matches and return
it only when it is not stale. -/
def get_cached_metadata (now : Int) (store : List DatabaseMetadata)
    (database_name : String) : Option DatabaseMetadata :=
  match store.find? (fun m => m.database_name == database_name) with
  | some metadata => if is_stale now metadata.fetched_at then none else some metadata
  | none => none

/-- Apply `f` to the first element satisfying `p`, leaving the rest of
the list unchanged — the effect of mutating the row returned by
`.first()` and committing. -/
def updateFirst (p : α → Bool) (f : α → α) : List α → List α
  | [] => []
  | x :: xs => if p x then f x :: xs else x :: updateFirst p f xs

/-- Embedding of `cache_metadata` (`app/services/metadata.py`, lines
169-214): compute the table count; if a row for this connection name
exists, update that row's payload, fetch timestamp and table count in
place, otherwise insert a new row. -/
def cache_metadata (now : Int) (store : List DatabaseMetadata)
    (database_name : String) (metadata_dict : MetadataDict) :
    List DatabaseMetadata :=
  let table_count := metadata_dict.tables.length + metadata_dict.views.length
  match store.find? (fun m => m.database_name == database_name) with
  | some _ =>
      updateFirst (fun m => m.database_name == database_name)
        (fun m => { m with metadata_json := metadata_dict,
                           fetched_at := now,
                           table_count := table_count }) store
  | none =>
      store ++ [{ database_name := database_name,
                  metadata_json := metadata_dict,
                  fetched_at := now,
                  table_count := table_count }]

/-- Fold a sequence of `cache_metadata` writes over an initially empty
store; each element gives the connection name, the payload and the wall
clock of that write. -/
def runPuts (ps : List (String × MetadataDict × Int)) :
    List DatabaseMetadata :=
  ps.foldl (fun store pr => cache_metadata pr.2.2 store pr.1 pr.2.1) []

/-- A row of the combined `pg_tables`/`pg_views` listing query in
`extract_postgres_metadata`. -/
structure TableRow where
  schemaname : String
  tablename : String
  type : String
deriving DecidableEq, Repr

/-- A row of the per-table `information_schema.columns` query in
`extract_postgres_metadata`. -/
structure ColumnRow where
  column_name : String
  data_type : String
  character_maximum_length : Option Nat
  is_nullable : String
  column_default : Option String
  is_primary_key : Bool
  is_unique : Bool
deriving DecidableEq, Repr

/-- Interface of the live PostgreSQL connection as used by
`extract_postgres_metadata`: the table/view listing, the per-table column
rows, and the outcome of the per-table `SELECT COUNT(*)` query —
an exception, no row, or a row with the count. -/
structure PgMetaEnv where
  tables_rows : List TableRow
  columns_rows : String → String → List ColumnRow
  count_row : String → String → Except String (Option Int)

/-- Column-dictionary construction inside `extract_postgres_metadata`
(`app/services/metadata.py`, lines 96-111): append the character maximum
length in parentheses when it is truthy (present and non-zero), and read
nullability from `is_nullable == "YES"`. -/
def buildColumnMeta (col_row : ColumnRow) : ColumnMeta :=
  let data_type :=
    match col_row.character_maximum_length with
    | some l =>
        if l ≠ 0 then
          col_row.data_type ++ "(" ++ toString l ++ ")"
        else col_row.data_type
    | none => col_row.data_type
  { name := col_row.column_name,
    dataType := data_type,
    nullable := col_row.is_nullable == "YES",
    primaryKey := col_row.is_primary_key,
    unique := col_row.is_unique,
    defaultValue := col_row.column_default }

/-- Per-row body of the loop of `extract_postgres_metadata`
(`app/services/metadata.py`, lines 51-137): build the column list; for a
table (never a view) attempt the row count, leaving it absent when the
count query raises or returns no row; assemble the table dictionary with
the `rowCount` key only when a count was obtained. -/
def processTableRow (env : PgMetaEnv) (row : TableRow) : TableMeta :=
  let columns := (env.columns_rows row.schemaname row.tablename).map
    buildColumnMeta
  let row_count : Option Int :=
    if row.type = "table" then
      match env.count_row row.schemaname row.tablename with
      | .ok (some c) => some c
      | .ok none => none
      | .error _ => none
    else none
  { name := row.tablename,
    type := row.type,
    schemaName := row.schemaname,
    columns := columns,
    rowCount := row_count }

/-- Embedding of `extract_postgres_metadata` (`app/services/metadata.py`,
lines 15-142): process every listed row and split the results into tables
and views by the row's type tag, preserving order. -/
def extract_postgres_metadata (env : PgMetaEnv) : MetadataDict :=
  let metas := env.tables_rows.map (processTableRow env)
  { tables := metas.filter (fun m => m.type == "table"),
    views := metas.filter (fun m => !(m.type == "table")) }

/-- C5: a Metadata Snapshot is stale exactly when now minus its fetch
timestamp strictly exceeds 24 hours; a snapshot fetched 24 hours and one
second ago is stale, one fetched 23 hours 59 minutes ago is not; and
`get_cached_metadata` returns absent exactly when no row exists for the
name or the existing row is stale. -/
theorem C5_staleness_boundary
    : (∀ fetched_at : Int,
        is_stale (fetched_at + (24 * 60 * 60 + 1)) fetched_at = true) ∧
      (∀ fetched_at : Int,
        is_stale (fetched_at + (23 * 60 * 60 + 59 * 60)) fetched_at =
          false) ∧
      (∀ now fetched_at : Int,
        is_stale now fetched_at = true ↔
          now - fetched_at > 24 * 60 * 60) ∧
      (∀ (now : Int) (store : List DatabaseMetadata) (n : String),
        get_cached_metadata now store n = none ↔
          ∀ m, store.find? (fun x => x.database_name == n) = some m →
            is_stale now m.fetched_at = true) := by
  refine ⟨?_, ?_, ?_, ?_⟩
  · intro f
    simp only [is_stale, decide_eq_true_eq]
    omega
  · intro f
    simp only [is_stale, decide_eq_false_iff_not]
    omega
  · intro now f
    simp only [is_stale, decide_eq_true_eq]
  · intro now store n
    unfold get_cached_metadata
    cases hf : store.find? (fun x => x.database_name == n) with
    | none => simp
    | some m =>
      cases hs : is_stale now m.fetched_at with
      | true => simp [hs]
      | false => simp [hs]

/-- Witness for C5: concrete boundary instants at fetch time 0, and the
absent result on the empty store. -/
theorem C5_witness :
    is_stale (0 + (24 * 60 * 60 + 1)) 0 = true ∧
    is_stale (0 + (23 * 60 * 60 + 59 * 60)) 0 = false ∧
    get_cached_metadata 0 [] "db" = none :=
  ⟨C5_staleness_boundary.1 0, C5_staleness_boundary.2.1 0,
    (C5_staleness_boundary.2.2.2 0 [] "db").mpr
      (fun m h => by simp at h)⟩

/-- Looking up the connection name right after `cache_metadata` finds a
row holding the just-written payload and fetch timestamp. -/
theorem find?_cache_metadata (now : Int) (store : List DatabaseMetadata)
    (n : String) (d : MetadataDict) :
    ∃ row, (cache_metadata now store n d).find?
        (fun m => m.database_name == n) = some row ∧
      row.metadata_json = d ∧ row.fetched_at = now := by
  induction store with
  | nil =>
    refine ⟨{ database_name := n, metadata_json := d, fetched_at := now,
              table_count := d.tables.length + d.views.length },
      ?_, rfl, rfl⟩
    simp [cache_metadata, List.find?]
  | cons x xs ih =>
    cases hpx : (x.database_name == n) with
    | true =>
      refine ⟨{ x with
                metadata_json := d
                fetched_at := now
                table_count := d.tables.length + d.views.length },
        ?_, rfl, rfl⟩
      simp [cache_metadata, List.find?, hpx, updateFirst]
    | false =>
      have hstep : cache_metadata now (x :: xs) n d =
          x :: cache_metadata now xs n d := by
        simp only [cache_metadata, List.find?_cons, hpx, cond_false]
        cases hfx : xs.find? (fun m => m.database_name == n) with
        | some y => simp [updateFirst, hpx]
        | none => simp
      obtain ⟨row, hfind, hjson, hts⟩ := ih
      refine ⟨row, ?_, hjson, hts⟩
      rw [hstep]
      simp [List.find?, hpx, hfind]

/-- An update that never changes whether elements match `p` leaves the
`p`-count unchanged, whichever element it rewrites. -/
theorem countP_updateFirst_of_preserve (p q : α → Bool) (f : α → α)
    (hf : ∀ a, p (f a) = p a) (l : List α) :
    (updateFirst q f l).countP p = l.countP p := by
  induction l with
  | nil => rfl
  | cons x xs ih =>
    cases hqx : q x with
    | true => simp [updateFirst, hqx, List.countP_cons, hf x]
    | false => simp [updateFirst, hqx, List.countP_cons, ih]

/-- The row count for a connection name after `cache_metadata`: one when
no row existed, unchanged otherwise. -/
theorem countP_cache_metadata (now : Int) (store : List DatabaseMetadata)
    (n : String) (d : MetadataDict) :
    (cache_metadata now store n d).countP
        (fun m => m.database_name == n) =
      if store.countP (fun m => m.database_name == n) = 0 then 1
      else store.countP (fun m => m.database_name == n) := by
  cases hf : store.find? (fun m => m.database_name == n) with
  | some y =>
    have hy : store.countP (fun m => m.database_name == n) ≠ 0 := by
      have hmem := List.mem_of_find?_eq_some hf
      have hp := List.find?_some hf
      intro h0
      rw [List.countP_eq_zero] at h0
      exact absurd hp (by simpa using h0 y hmem)
    rw [cache_metadata]
    simp only [hf, if_neg hy]
    refine countP_updateFirst_of_preserve _ _ _ ?_ store
    intro a
    rfl
  | none =>
    have h0 : store.countP (fun m => m.database_name == n) = 0 := by
      rw [List.countP_eq_zero]
      intro a ha
      have := List.find?_eq_none.mp hf a ha
      simpa using this
    rw [cache_metadata]
    simp [hf, h0, List.countP_append, List.countP_cons]

/-- C6: writing a Metadata Snapshot and immediately reading it back under
the same connection name returns the identical payload, reported
non-stale with the write's fetch timestamp; `cache_metadata` has upsert
semantics — the per-name row count becomes one if no row existed and is
unchanged otherwise — so any sequence of writes starting from an empty
store leaves at most one row per connection name. -/
theorem C6_cache_roundtrip_and_upsert
    : (∀ (now : Int) (store : List DatabaseMetadata) (n : String)
          (d : MetadataDict),
        ∃ row,
          get_cached_metadata now (cache_metadata now store n d) n =
            some row ∧
          row.metadata_json = d ∧ row.fetched_at = now ∧
          is_stale now row.fetched_at = false) ∧
      (∀ (now : Int) (store : List DatabaseMetadata) (n : String)
          (d : MetadataDict),
        (cache_metadata now store n d).countP
            (fun m => m.database_name == n) =
          if store.countP (fun m => m.database_name == n) = 0 then 1
          else store.countP (fun m => m.database_name == n)) ∧
      (∀ (ps : List (String × MetadataDict × Int)) (n : String),
        (runPuts ps).countP (fun m => m.database_name == n) ≤ 1) := by
  refine ⟨?_, countP_cache_metadata, ?_⟩
  · intro now store n d
    obtain ⟨row, hfind, hjson, hts⟩ := find?_cache_metadata now store n d
    have hstale : is_stale now row.fetched_at = false := by
      rw [hts]
      simp [is_stale]
    refine ⟨row, ?_, hjson, hts, hstale⟩
    rw [get_cached_metadata, hfind]
    simp [hstale]
  · intro ps n
    have key : ∀ (ps : List (String × MetadataDict × Int))
        (store : List DatabaseMetadata),
        store.countP (fun m => m.database_name == n) ≤ 1 →
        (ps.foldl (fun store pr => cache_metadata pr.2.2 store pr.1 pr.2.1)
            store).countP (fun m => m.database_name == n) ≤ 1 := by
      intro ps
      induction ps with
      | nil => intro store h; exact h
      | cons q qs ih =>
        intro store h
        refine ih _ ?_
        by_cases hq : q.1 = n
        · subst hq
          rw [countP_cache_metadata]
          split
          · exact Nat.le_refl 1
          · exact h
        · have : (cache_metadata q.2.2 store q.1 q.2.1).countP
              (fun m => m.database_name == n) =
              store.countP (fun m => m.database_name == n) := by
            cases hf : store.find? (fun m => m.database_name == q.1) with
            | some y =>
              rw [cache_metadata]
              simp only [hf]
              refine countP_updateFirst_of_preserve _ _ _ ?_ store
              intro a
              rfl
            | none =>
              rw [cache_metadata]
              simp only [hf]
              simp [List.countP_append, List.countP_cons, hq]
          rw [this]
          exact h
    exact key ps [] (by simp)

/-- State of the `DatabaseAdapterRegistry`
(`app/adapters/registry.py`): registered adapter classes (class names)
keyed by database type, cached adapter instances keyed by the cache-key
string, and a fresh-reference allocator. Object identity (Python
reference equality) is modelled by the allocation number of the
instance. -/
structure RegistryState where
  adapters : List (DatabaseType × String)
  instances : List (String × Nat)
  nextId : Nat
deriving DecidableEq, Repr

/-- Cache key of `get_adapter`: `f"{db_type.value}:{config.name}"`. -/
def cache_key (db_type : DatabaseType) (name : String) : String :=
  db_type.value ++ ":" ++ name

/-- Embedding of `DatabaseAdapterRegistry.get_adapter`
(`app/adapters/registry.py`, lines 61-95): an unregistered database type
raises `ValueError` and leaves the registry untouched; otherwise the
instance cached under `"{type}:{name}"` is returned, creating and caching
a fresh instance exactly when the key is absent. -/
def get_adapter (s : RegistryState) (db_type : DatabaseType)
    (name : String) : Except String Nat × RegistryState :=
  if (s.adapters.find? (fun a => a.1 == db_type)).isNone then
    (.error ("Unsupported database type: " ++ db_type.value), s)
  else
    let key := cache_key db_type name
    match s.instances.find? (fun i => i.1 == key) with
    | some inst => (.ok inst.2, s)
    | none =>
        (.ok s.nextId,
          { s with instances := s.instances ++ [(key, s.nextId)],
                   nextId := s.nextId + 1 })

/-- Registry as built by `DatabaseAdapterRegistry.__init__`: the two
built-in adapter classes registered, no cached instances. -/
def initialRegistry : RegistryState :=
  { adapters := [(.postgresql, "PostgreSQLAdapter"),
                 (.mysql, "MySQLAdapter")],
    instances := [], nextId := 0 }

/-- C7: for a registered database type, two successive `get_adapter`
calls with the identical (type, name) pair return the same adapter
instance (reference equality, modelled as allocation-number equality) and
the second call changes nothing; for an unregistered type `get_adapter`
raises a configuration error and neither creates nor caches any
instance. -/
theorem C7_registry_instance_reuse
    (s : RegistryState) (db_type : DatabaseType) (name : String) :
    ((s.adapters.find? (fun a => a.1 == db_type)).isSome →
      ∃ inst,
        (get_adapter s db_type name).1 = .ok inst ∧
        (get_adapter (get_adapter s db_type name).2 db_type name).1 =
          .ok inst ∧
        (get_adapter (get_adapter s db_type name).2 db_type name).2 =
          (get_adapter s db_type name).2) ∧
    ((s.adapters.find? (fun a => a.1 == db_type)).isNone →
      get_adapter s db_type name =
        (.error ("Unsupported database type: " ++ db_type.value), s)) := by
  constructor
  · intro hreg
    have hreg' : (s.adapters.find? (fun a => a.1 == db_type)).isNone =
        false := by
      rcases Option.isSome_iff_exists.mp hreg with ⟨a, ha⟩
      simp [ha]
    cases hI : s.instances.find? (fun i => i.1 == cache_key db_type name)
        with
    | some inst =>
      refine ⟨inst.2, ?_, ?_, ?_⟩ <;>
        simp [get_adapter, hreg', hI]
    | none =>
      have hfirst : get_adapter s db_type name =
          (.ok s.nextId,
            { s with
              instances :=
                s.instances ++ [(cache_key db_type name, s.nextId)]
              nextId := s.nextId + 1 }) := by
        simp [get_adapter, hreg', hI]
      have hsecond : get_adapter
          ({ s with
             instances :=
               s.instances ++ [(cache_key db_type name, s.nextId)]
             nextId := s.nextId + 1 }) db_type name =
          (.ok s.nextId,
            { s with
              instances :=
                s.instances ++ [(cache_key db_type name, s.nextId)]
              nextId := s.nextId + 1 }) := by
        simp [get_adapter, hreg', List.find?_append, hI, List.find?]
      refine ⟨s.nextId, ?_, ?_, ?_⟩
      · rw [hfirst]
      · rw [hfirst, hsecond]
      · rw [hfirst, hsecond]
  · intro hunreg
    simp [get_adapter, hunreg]

/-- Witness for C7: on the freshly initialized registry, asking twice for
the postgresql adapter named `mydb` yields instance 0 both times, and the
second call leaves the registry unchanged. -/
theorem C7_witness :
    (get_adapter initialRegistry .postgresql "mydb").1 = .ok 0 ∧
    (get_adapter (get_adapter initialRegistry .postgresql "mydb").2
        .postgresql "mydb").1 = .ok 0 ∧
    (get_adapter (get_adapter initialRegistry .postgresql "mydb").2
        .postgresql "mydb").2 =
      (get_adapter initialRegistry .postgresql "mydb").2 := by
  obtain ⟨inst, h1, h2, h3⟩ :=
    (C7_registry_instance_reuse initialRegistry .postgresql "mydb").1
      (by decide)
  have heval : (get_adapter initialRegistry .postgresql "mydb").1 =
      .ok 0 := rfl
  rw [heval] at h1
  injection h1 with h0
  subst h0
  exact ⟨heval, h2, h3⟩

/-- C8: when the per-table row-count query raises, the table still
appears in the extraction result with its columns and with the row-count
field absent (modelled as `rowCount = none`, mirroring the omitted
dictionary key); a row's processing depends only on its own column and
count queries, so one table's failure never aborts or alters the rest of
the extraction; and for a view the row count is never attempted — the
result is independent of the count query and carries no row count. -/
theorem C8_rowcount_failure_degrades_gracefully :
    (∀ (env : PgMetaEnv) (row : TableRow),
        row ∈ env.tables_rows → row.type = "table" →
        ∀ e, env.count_row row.schemaname row.tablename = .error e →
        (processTableRow env row).rowCount = none ∧
        (processTableRow env row).columns =
          (env.columns_rows row.schemaname row.tablename).map
            buildColumnMeta ∧
        processTableRow env row ∈ (extract_postgres_metadata env).tables) ∧
    (∀ (env env' : PgMetaEnv) (row : TableRow),
        env'.columns_rows row.schemaname row.tablename =
          env.columns_rows row.schemaname row.tablename →
        env'.count_row row.schemaname row.tablename =
          env.count_row row.schemaname row.tablename →
        processTableRow env' row = processTableRow env row) ∧
    (∀ (env : PgMetaEnv) (row : TableRow),
        ¬ row.type = "table" →
        (processTableRow env row).rowCount = none ∧
        ∀ cr, processTableRow { env with count_row := cr } row =
          processTableRow env row) := by
  refine ⟨?_, ?_, ?_⟩
  · intro env row hmem htype e herr
    refine ⟨?_, rfl, ?_⟩
    · simp [processTableRow, htype, herr]
    · refine List.mem_filter.mpr ⟨List.mem_map_of_mem _ hmem, ?_⟩
      simp [processTableRow, htype]
  · intro env env' row hcols hcount
    simp [processTableRow, hcols, hcount]
  · intro env row htype
    exact ⟨by simp [processTableRow, htype],
      fun cr => by simp [processTableRow, htype]⟩

/-- Concrete extraction environment for the C8 witness: one table whose
count query raises a permission error, one view, and one column each. -/
def pgEnvDemo : PgMetaEnv :=
  { tables_rows := [{ schemaname := "public", tablename := "users",
                      type := "table" },
                    { schemaname := "public", tablename := "user_view",
                      type := "view" }],
    columns_rows := fun _ _ =>
      [{ column_name := "id", data_type := "integer",
         character_maximum_length := none, is_nullable := "NO",
         column_default := none, is_primary_key := true,
         is_unique := true }],
    count_row := fun _ _ => .error "permission denied for table users" }

/-- Witness for C8: in the demo environment the failing table is still
extracted, with its column and without a row count. -/
theorem C8_witness :
    (processTableRow pgEnvDemo
      { schemaname := "public", tablename := "users",
        type := "table" }).rowCount = none ∧
    (processTableRow pgEnvDemo
      { schemaname := "public", tablename := "users",
        type := "table" }).columns =
      (pgEnvDemo.columns_rows "public" "users").map buildColumnMeta ∧
    processTableRow pgEnvDemo
      { schemaname := "public", tablename := "users", type := "table" } ∈
      (extract_postgres_metadata pgEnvDemo).tables :=
  (C8_rowcount_failure_degrades_gracefully).1 pgEnvDemo
    { schemaname := "public", tablename := "users", type := "table" }
    (by simp [pgEnvDemo]) rfl "permission denied for table users" rfl

/-- A row of the `queryhistory` SQLite table, from `app/models/query.py`
(`QueryHistory`). The auto-increment id column is omitted; `executed_at`
timestamps come from a strictly monotone clock, so rows written in one
run are pairwise distinct and structural equality coincides with row
identity. -/
structure QueryHistory where
  database_name : String
  sql_text : String
  executed_at : Nat
  execution_time_ms : Option Nat
  row_count : Option Nat
  success : Bool
  error_message : Option String
  query_source : QuerySource
deriving DecidableEq, Repr

/-- The audit-history side of the SQLite session: the stored rows in
insertion order, plus the wall clock assigned to the next
`datetime.now` call. -/
structure AuditState where
  store : List QueryHistory
  clock : Nat
deriving DecidableEq, Repr

/-- Ordering used by `ORDER BY executed_at DESC`: more recent first. -/
def laterFirst (a b : QueryHistory) : Prop :=
  b.executed_at ≤ a.executed_at

instance : DecidableRel laterFirst :=
  fun a b => Nat.decLe b.executed_at a.executed_at

/-- Rows sorted by `executed_at` descending. -/
def sortByExecutedAtDesc (l : List QueryHistory) : List QueryHistory :=
  l.insertionSort laterFirst

/-- Embedding of `cleanup_old_queries` (`app/services/query.py`, lines
195-216): select this connection's rows ordered by `executed_at`
descending; when more than 50 exist, delete every row beyond the 50th. -/
def cleanup_old_queries (store : List QueryHistory)
    (database_name : String) : List QueryHistory :=
  let all_queries := sortByExecutedAtDesc
    (store.filter (fun q => q.database_name == database_name))
  if all_queries.length > 50 then
    let queries_to_delete := all_queries.drop 50
    store.filter (fun q => decide (q ∉ queries_to_delete))
  else store

/-- Embedding of `save_query_history` (`app/services/query.py`, lines
148-192): insert one `QueryHistory` row stamped with the current clock,
then trim this connection's history to the 50 most recent rows; returns
the new session state together with the inserted row. -/
def save_query_history (st : AuditState) (database_name : String)
    (sql : String) (row_count : Option Nat)
    (execution_time_ms : Option Nat) (success : Bool)
    (error_message : Option String) (query_source : QuerySource) :
    AuditState × QueryHistory :=
  let history : QueryHistory :=
    { database_name := database_name, sql_text := sql,
      executed_at := st.clock, execution_time_ms := execution_time_ms,
      row_count := row_count, success := success,
      error_message := error_message, query_source := query_source }
  ({ store := cleanup_old_queries (st.store ++ [history]) database_name,
     clock := st.clock + 1 }, history)

/-- Argument bundle of one `save_query_history` call. -/
structure SaveReq where
  database_name : String
  sql : String
  row_count : Option Nat
  execution_time_ms : Option Nat
  success : Bool
  error_message : Option String
  query_source : QuerySource

/-- A sequence of history inserts on an initially empty history. -/
def runSaves (rs : List SaveReq) : AuditState :=
  rs.foldl
    (fun st r =>
      (save_query_history st r.database_name r.sql r.row_count
        r.execution_time_ms r.success r.error_message r.query_source).1)
    { store := [], clock := 0 }

/-- A scalar as it appears in a fetched driver row: Python `None`, int,
bool, float, str, a datetime, or a value of some other type (carrying its
type name). The float payload is irrelevant to every claim and is
omitted. -/
inductive CellValue where
  | null
  | int (i : Int)
  | bool (b : Bool)
  | float
  | str (s : String)
  | datetime (t : Nat)
  | other (tyName : String)
deriving DecidableEq, Repr

/-- Column entry of a `QueryResult`, from `app/models/schemas.py`
(`QueryColumn`). -/
structure QueryColumn where
  name : String
  dataType : String
deriving DecidableEq, Repr

/-- Value-based type inference of the PostgreSQL branch of
`execute_query` (`app/services/query.py`, lines 79-93). Python's `bool`
is a subclass of `int`, so `isinstance(value, int)` is true for booleans
and the later boolean branch of the source chain is unreachable; a
boolean therefore reports "integer", mirrored here. -/
def inferDataType : CellValue → String
  | .null => "unknown"
  | .int _ => "integer"
  | .bool _ => "integer"
  | .float => "double precision"
  | .str _ => "character varying"
  | .datetime _ => "timestamp"
  | .other tyName => tyName

/-- Column derivation of the PostgreSQL branch (`app/services/query.py`,
lines 72-95): column names and types come solely from the first returned
row; with no rows, no column metadata is produced. -/
def pgColumns (rows : List (List (String × CellValue))) :
    List QueryColumn :=
  match rows with
  | [] => []
  | first_row :: _ =>
      first_row.map (fun kv => { name := kv.1,
                                 dataType := inferDataType kv.2 })

/-- Embedding of `_map_mysql_type` (`app/services/mysql_query.py`, lines
60-103). -/
def map_mysql_type (type_code : Nat) : String :=
  match type_code with
  | 0 => "DECIMAL"
  | 1 => "TINY"
  | 2 => "SHORT"
  | 3 => "LONG"
  | 4 => "FLOAT"
  | 5 => "DOUBLE"
  | 6 => "NULL"
  | 7 => "TIMESTAMP"
  | 8 => "LONGLONG"
  | 9 => "INT24"
  | 10 => "DATE"
  | 11 => "TIME"
  | 12 => "DATETIME"
  | 13 => "YEAR"
  | 14 => "NEWDATE"
  | 15 => "VARCHAR"
  | 16 => "BIT"
  | 245 => "JSON"
  | 246 => "NEWDECIMAL"
  | 247 => "ENUM"
  | 248 => "SET"
  | 249 => "TINY_BLOB"
  | 250 => "MEDIUM_BLOB"
  | 251 => "LONG_BLOB"
  | 252 => "BLOB"
  | 253 => "VAR_STRING"
  | 254 => "STRING"
  | 255 => "GEOMETRY"
  | c => "UNKNOWN(" ++ toString c ++ ")"

/-- Abstract rendering of `datetime.isoformat()`; the exact text is
irrelevant to every claim, only that datetimes become strings. -/
def isoformat (t : Nat) : String := toString t

/-- Datetime-to-string conversion applied to each MySQL row value
(`app/services/mysql_query.py`, lines 44-51). -/
def processMyRowValue : CellValue → CellValue
  | .datetime t => .str (isoformat t)
  | v => v

/-- Per-row conversion of the MySQL result rows. -/
def processMyRow (row : List (String × CellValue)) :
    List (String × CellValue) :=
  row.map (fun kv => (kv.1, processMyRowValue kv.2))

/-- The MySQL cursor after executing a statement: the driver's
`cursor.description` (column name and type code per field, `none` for a
missing description) and the fetched rows. -/
structure MyCursor where
  description : Option (List (String × Nat))
  rows : List (List (String × CellValue))
deriving DecidableEq, Repr

/-- The dictionary returned by `mysql_query.execute_query`. -/
structure MyOutput where
  columns : List QueryColumn
  rows : List (List (String × CellValue))
  rowCount : Nat
deriving DecidableEq, Repr

/-- Embedding of `mysql_query.execute_query`
(`app/services/mysql_query.py`, lines 22-57): columns come from the
cursor description independently of the fetched rows (a falsy — absent
or empty — description yields no columns, exactly as iterating it adds
none); rows have datetimes stringified; rowCount is the row list
length. -/
def mysql_execute (cursor : MyCursor) : MyOutput :=
  let columns :=
    match cursor.description with
    | some ds =>
        ds.map (fun desc => { name := desc.1,
                              dataType := map_mysql_type desc.2 })
    | none => []
  let result_rows := cursor.rows.map processMyRow
  { columns := columns, rows := result_rows,
    rowCount := result_rows.length }

/-- The `QueryResult` response schema (`app/models/schemas.py`), with the
fields `execute_query` fills (export URLs stay unset there). -/
structure QueryResult where
  columns : List QueryColumn
  rows : List (List (String × CellValue))
  rowCount : Nat
  executionTimeMs : Nat
  sql : String
deriving DecidableEq, Repr

/-- Interface of the effectful collaborators of
`query.execute_query`: the sqlglot library, the outcome of
`connection_factory.get_connection_pool`, the outcome of the PostgreSQL
`conn.fetch` and of the MySQL cursor execution on the validated SQL, and
the measured wall-clock duration. -/
structure QueryEnv where
  glot : SqlGlot
  pool : Except String Unit
  runPg : String → Except String (List (List (String × CellValue)))
  runMy : String → Except String MyCursor
  elapsed_ms : Nat

/-- Embedding of `query.execute_query` (`app/services/query.py`, lines
15-145). Returns the result or raised error, the new audit-session
state, and the list of audit rows inserted by this invocation (one per
`save_query_history` call). Validation failure writes a failed entry and
re-raises; pool acquisition happens outside the try block, so its
failure propagates without any history write; after that, driver success
writes a success entry and driver failure writes a failed entry and
re-raises. `DatabaseType` has exactly the two handled members, so the
unsupported-type branch of the source match is unreachable. -/
def execute_query (env : QueryEnv) (st : AuditState)
    (database_name : String) (db_type : DatabaseType) (sql : String)
    (query_source : QuerySource) :
    Except String QueryResult × AuditState × List QueryHistory :=
  match validate_and_transform_sql env.glot sql 1000 db_type with
  | .error e =>
      let saved := save_query_history st database_name sql none none
        false (some e) query_source
      (.error e, saved.1, [saved.2])
  | .ok validated_sql =>
    match env.pool with
    | .error e => (.error e, st, [])
    | .ok _ =>
      match db_type with
      | .postgresql =>
        match env.runPg validated_sql with
        | .ok rows =>
            let columns := pgColumns rows
            let result_rows := rows
            let saved := save_query_history st database_name
              validated_sql (some result_rows.length)
              (some env.elapsed_ms) true none query_source
            (.ok { columns := columns, rows := result_rows,
                   rowCount := result_rows.length,
                   executionTimeMs := env.elapsed_ms,
                   sql := validated_sql },
              saved.1, [saved.2])
        | .error e =>
            let saved := save_query_history st database_name
              validated_sql none (some env.elapsed_ms) false (some e)
              query_source
            (.error e, saved.1, [saved.2])
      | .mysql =>
        match env.runMy validated_sql with
        | .ok cursor =>
            let result := mysql_execute cursor
            let saved := save_query_history st database_name
              validated_sql (some result.rows.length)
              (some env.elapsed_ms) true none query_source
            (.ok { columns := result.columns, rows := result.rows,
                   rowCount := result.rows.length,
                   executionTimeMs := env.elapsed_ms,
                   sql := validated_sql },
              saved.1, [saved.2])
        | .error e =>
            let saved := save_query_history st database_name
              validated_sql none (some env.elapsed_ms) false (some e)
              query_source
            (.error e, saved.1, [saved.2])

/-- Environment in which pool acquisition raises (e.g. an unreachable
database): validation succeeds, `get_connection_pool` raises before the
try block is entered. -/
def envPoolFail : QueryEnv :=
  { glot := toyGlot, pool := .error "connection refused",
    runPg := fun _ => .ok [], runMy := fun _ => .error "unused",
    elapsed_ms := 0 }

/-- Environment for the success-path witnesses: pool acquisition
succeeds, the PostgreSQL fetch returns zero rows, the MySQL cursor has a
one-column description and zero rows. -/
def envPgDemo : QueryEnv :=
  { glot := toyGlot, pool := .ok (),
    runPg := fun _ => .ok [],
    runMy := fun _ => .ok { description := some [("id", 3)], rows := [] },
    elapsed_ms := 5 }

/-- C3 as stated is false on the code: when `get_connection_pool` raises
(here: connection refused for a valid SELECT), the invocation ends in a
failure with zero audit entries written, because the pool is acquired
outside the try/except that records failures. -/
theorem C3_counterexample :
    ¬ ((execute_query envPoolFail { store := [], clock := 0 } "db"
        .postgresql "SELECT * FROM users" .manual).2.2.length = 1) := by
  decide

/-- C3 amended: every invocation of `execute_query` writes exactly one
audit entry on the validation-failure path and on both execution paths
(success or driver exception) once the pool is acquired; when pool
acquisition itself raises, the exception propagates with zero audit
entries written. -/
theorem C3_exactly_one_audit_write_after_pool
    (env : QueryEnv) (st : AuditState) (database_name : String)
    (db_type : DatabaseType) (sql : String) (qs : QuerySource) :
    (∀ e, validate_and_transform_sql env.glot sql 1000 db_type =
        .error e →
      (execute_query env st database_name db_type sql qs).2.2.length =
        1) ∧
    (∀ v, validate_and_transform_sql env.glot sql 1000 db_type = .ok v →
      env.pool = .ok () →
      (execute_query env st database_name db_type sql qs).2.2.length =
        1) ∧
    (∀ v e, validate_and_transform_sql env.glot sql 1000 db_type =
        .ok v →
      env.pool = .error e →
      (execute_query env st database_name db_type sql qs).2.2 = []) := by
  refine ⟨?_, ?_, ?_⟩
  · intro e hv
    simp [execute_query, hv]
  · intro v hv hp
    cases db_type with
    | postgresql =>
      cases hr : env.runPg v with
      | ok rows => simp [execute_query, hv, hp, hr]
      | error e => simp [execute_query, hv, hp, hr]
    | mysql =>
      cases hr : env.runMy v with
      | ok cursor => simp [execute_query, hv, hp, hr]
      | error e => simp [execute_query, hv, hp, hr]
  · intro v e hv hp
    simp [execute_query, hv, hp]

/-- Witness for the amended C3: a successful PostgreSQL invocation in the
demo environment writes exactly one audit entry. -/
theorem C3_witness :
    (execute_query envPgDemo { store := [], clock := 0 } "db"
      .postgresql "SELECT * FROM users" .manual).2.2.length = 1 :=
  (C3_exactly_one_audit_write_after_pool envPgDemo
    { store := [], clock := 0 } "db" .postgresql "SELECT * FROM users"
    .manual).2.1 "SELECT * FROM users LIMIT 1000" rfl rfl

/-- C10: on the PostgreSQL path a query returning zero rows produces a
`QueryResult` with an empty column list (columns are inferred solely from
the first returned row), while the MySQL path derives its columns from
the cursor description independently of the fetched rows — an asymmetry
at the result interface. -/
theorem C10_empty_result_column_asymmetry
    (env : QueryEnv) (st : AuditState) (database_name : String)
    (sql : String) (qs : QuerySource) :
    (∀ v, validate_and_transform_sql env.glot sql 1000 .postgresql =
        .ok v →
      env.pool = .ok () →
      env.runPg v = .ok [] →
      ∃ r, (execute_query env st database_name .postgresql sql qs).1 =
          .ok r ∧
        r.columns = [] ∧ r.rowCount = 0) ∧
    (∀ v cursor,
      validate_and_transform_sql env.glot sql 1000 .mysql = .ok v →
      env.pool = .ok () →
      env.runMy v = .ok cursor →
      ∃ r, (execute_query env st database_name .mysql sql qs).1 =
          .ok r ∧
        r.columns = (mysql_execute cursor).columns) ∧
    (∀ c1 c2 : MyCursor, c1.description = c2.description →
      (mysql_execute c1).columns = (mysql_execute c2).columns) := by
  refine ⟨?_, ?_, ?_⟩
  · intro v hv hp hr
    refine ⟨{ columns := pgColumns [], rows := [], rowCount := 0,
              executionTimeMs := env.elapsed_ms, sql := v },
      ?_, rfl, rfl⟩
    simp [execute_query, hv, hp, hr]
  · intro v cursor hv hp hr
    refine ⟨{ columns := (mysql_execute cursor).columns,
              rows := (mysql_execute cursor).rows,
              rowCount := (mysql_execute cursor).rows.length,
              executionTimeMs := env.elapsed_ms, sql := v },
      ?_, rfl⟩
    simp [execute_query, hv, hp, hr]
  · intro c1 c2 h
    simp [mysql_execute, h]

/-- Witness for C10: in the demo environment (zero rows on both paths)
the PostgreSQL result has no columns at all while the MySQL result still
reports the `id LONG` column from the cursor description. -/
theorem C10_witness :
    (∃ r, (execute_query envPgDemo { store := [], clock := 0 } "db"
        .postgresql "SELECT * FROM users" .manual).1 = .ok r ∧
      r.columns = [] ∧ r.rowCount = 0) ∧
    (∃ r, (execute_query envPgDemo { store := [], clock := 0 } "db"
        .mysql "SELECT * FROM users" .manual).1 = .ok r ∧
      r.columns = (mysql_execute
        { description := some [("id", 3)], rows := [] }).columns) :=
  ⟨(C10_empty_result_column_asymmetry envPgDemo
      { store := [], clock := 0 } "db" "SELECT * FROM users" .manual).1
      "SELECT * FROM users LIMIT 1000" rfl rfl rfl,
   (C10_empty_result_column_asymmetry envPgDemo
      { store := [], clock := 0 } "db" "SELECT * FROM users" .manual).2.1
      "SELECT * FROM users LIMIT 1000"
      { description := some [("id", 3)], rows := [] } rfl rfl rfl⟩

/-- Deleting everything beyond position `k` of a sorted copy of the
`p`-matching elements leaves at most `k` matching elements. -/
theorem countP_truncate_le {α : Type} [DecidableEq α]
    (p : α → Bool) (store sorted : List α) (k : Nat)
    (hperm : List.Perm sorted (store.filter p)) :
    (store.filter (fun a => decide (a ∉ sorted.drop k))).countP p ≤ k := by
  have key : ∀ D : List α, sorted.drop k = D →
      (store.filter (fun a => decide (a ∉ D))).countP p ≤ k := by
    intro D hD
    have h1 : (store.filter (fun a => decide (a ∉ D))).countP p =
        store.countP (fun a => decide (a ∉ D) && p a) := by
      rw [List.countP_filter]
      exact List.countP_congr (fun a _ => by simp [Bool.and_comm])
    have h2 : store.countP (fun a => decide (a ∉ D) && p a) =
        (store.filter p).countP (fun a => decide (a ∉ D)) := by
      rw [List.countP_filter]
    have h3 : (store.filter p).countP (fun a => decide (a ∉ D)) =
        sorted.countP (fun a => decide (a ∉ D)) :=
      (List.Perm.countP_eq _ hperm).symm
    have h4 : sorted.countP (fun a => decide (a ∉ D)) =
        (sorted.take k).countP (fun a => decide (a ∉ D)) +
        (sorted.drop k).countP (fun a => decide (a ∉ D)) := by
      conv_lhs => rw [← List.take_append_drop k sorted]
      rw [List.countP_append]
    have h5 : (sorted.drop k).countP (fun a => decide (a ∉ D)) = 0 := by
      rw [List.countP_eq_zero]
      intro a ha
      rw [hD] at ha
      simp [ha]
    have h6 : (sorted.take k).countP (fun a => decide (a ∉ D)) ≤ k :=
      calc (sorted.take k).countP (fun a => decide (a ∉ D)) ≤
          (sorted.take k).length := List.countP_le_length _
        _ ≤ k := by rw [List.length_take]; exact inf_le_left
    rw [h1, h2, h3, h4, h5]
    omega
  exact key _ rfl

/-- After `cleanup_old_queries` for a connection name, at most 50 rows of
that name remain. -/
theorem countP_cleanup_le (store : List QueryHistory) (n : String) :
    (cleanup_old_queries store n).countP
      (fun q => q.database_name == n) ≤ 50 := by
  simp only [cleanup_old_queries, sortByExecutedAtDesc]
  split
  case isTrue hlen =>
    exact countP_truncate_le _ store _ 50 (List.perm_insertionSort _ _)
  case isFalse hlen =>
    rw [List.countP_eq_length_filter]
    have hp := (List.perm_insertionSort laterFirst
      (store.filter (fun q => q.database_name == n))).length_eq
    omega

/-- `cleanup_old_queries` for one connection name deletes no row of any
other connection name. -/
theorem filter_cleanup_other (store : List QueryHistory) (n m : String)
    (hnm : ¬ m = n) :
    (cleanup_old_queries store n).filter
      (fun q => q.database_name == m) =
    store.filter (fun q => q.database_name == m) := by
  simp only [cleanup_old_queries, sortByExecutedAtDesc]
  split
  case isTrue hlen =>
    rw [List.filter_filter]
    apply List.filter_congr
    intro x hx
    cases hxm : (x.database_name == m) with
    | false => simp
    | true =>
      simp only [Bool.and_true, Bool.true_and, decide_eq_true_eq]
      intro hxD
      have hx1 : x ∈ (store.filter
          (fun q => q.database_name == n)).insertionSort laterFirst :=
        List.mem_of_mem_drop hxD
      have hx2 : x ∈ store.filter (fun q => q.database_name == n) :=
        (List.perm_insertionSort laterFirst _).mem_iff.mp hx1
      have hxn : x.database_name = n := by
        have := (List.mem_filter.mp hx2).2
        exact eq_of_beq this
      exact hnm ((eq_of_beq hxm) ▸ hxn)
  case isFalse hlen => rfl

/-- A `save_query_history` call leaves at most 50 rows for the saved
connection name. -/
theorem countP_save_same (st : AuditState) (n sql : String)
    (rc ms : Option Nat) (succ : Bool) (err : Option String)
    (qs : QuerySource) :
    ((save_query_history st n sql rc ms succ err qs).1.store).countP
      (fun q => q.database_name == n) ≤ 50 :=
  countP_cleanup_le _ n

/-- A `save_query_history` call for one connection name leaves every
other connection name's rows exactly unchanged. -/
theorem filter_save_other (st : AuditState) (n sql : String)
    (rc ms : Option Nat) (succ : Bool) (err : Option String)
    (qs : QuerySource) (m : String) (hnm : ¬ m = n) :
    ((save_query_history st n sql rc ms succ err qs).1.store).filter
      (fun q => q.database_name == m) =
    st.store.filter (fun q => q.database_name == m) := by
  have hnmeq : (n == m) = false := by
    simp only [beq_eq_false_iff_ne, ne_eq]
    intro h
    exact hnm h.symm
  have h1 := filter_cleanup_other
    (st.store ++ [(save_query_history st n sql rc ms succ err qs).2])
    n m hnm
  refine h1.trans ?_
  rw [List.filter_append]
  have hrow : ((save_query_history st n sql rc ms succ err
      qs).2).database_name = n := rfl
  simp [hrow, hnmeq]

/-- Any sequence of saves leaves at most 50 rows per connection name. -/
theorem countP_runSaves_le (rs : List SaveReq) (n : String) :
    ((runSaves rs).store).countP (fun q => q.database_name == n) ≤ 50 := by
  have key : ∀ (rs : List SaveReq) (st : AuditState),
      (∀ m, st.store.countP (fun q => q.database_name == m) ≤ 50) →
      ∀ m, ((rs.foldl
          (fun st r =>
            (save_query_history st r.database_name r.sql r.row_count
              r.execution_time_ms r.success r.error_message
              r.query_source).1)
          st).store).countP (fun q => q.database_name == m) ≤ 50 := by
    intro rs
    induction rs with
    | nil => intro st h m; exact h m
    | cons w tws ih =>
      intro st h m
      apply ih
      intro m'
      by_cases hw : m' = w.database_name
      · subst hw
        exact countP_save_same st w.database_name w.sql w.row_count
          w.execution_time_ms w.success w.error_message w.query_source
      · rw [List.countP_eq_length_filter,
          filter_save_other st w.database_name w.sql w.row_count
            w.execution_time_ms w.success w.error_message w.query_source
            m' hw,
          ← List.countP_eq_length_filter]
        exact h m'
  exact key rs { store := [], clock := 0 } (fun m => by simp) n

/-- The mandated 60/10 retention scenario: 60 saves for connection "A"
followed by 10 for connection "B". -/
def retentionScenario : List SaveReq :=
  List.replicate 60
      { database_name := "A", sql := "SELECT 1", row_count := some 0,
        execution_time_ms := some 0, success := true,
        error_message := none, query_source := .manual } ++
    List.replicate 10
      { database_name := "B", sql := "SELECT 1", row_count := some 0,
        execution_time_ms := some 0, success := true,
        error_message := none, query_source := .manual }

set_option maxRecDepth 40000 in
/-- C4: after any sequence of audit inserts at most 50 rows per
connection name are retained; a save for one connection name never
deletes another name's rows; and in the 60-for-"A", 10-for-"B" scenario
exactly the 50 most recent "A" rows (timestamps 10..59 of 0..59) and all
10 "B" rows remain. -/
theorem C4_retention_bound_and_isolation :
    (∀ (rs : List SaveReq) (n : String),
      ((runSaves rs).store).countP (fun q => q.database_name == n) ≤
        50) ∧
    (∀ (st : AuditState) (n sql : String) (rc ms : Option Nat)
        (succ : Bool) (err : Option String) (qs : QuerySource)
        (m : String), ¬ m = n →
      ((save_query_history st n sql rc ms succ err qs).1.store).filter
          (fun q => q.database_name == m) =
        st.store.filter (fun q => q.database_name == m)) ∧
    ((runSaves retentionScenario).store.filter
        (fun q => q.database_name == "A")).length = 50 ∧
    ((runSaves retentionScenario).store.filter
        (fun q => q.database_name == "A")).map
        (fun q => q.executed_at) = (List.range 60).drop 10 ∧
    ((runSaves retentionScenario).store.filter
        (fun q => q.database_name == "B")).length = 10 :=
  ⟨countP_runSaves_le, filter_save_other, by decide, by decide,
    by decide⟩

/-- Witness for C4: a save for "A" on the empty history deletes nothing
of "B". -/
theorem C4_witness :
    ((save_query_history { store := [], clock := 0 } "A" "SELECT 1"
        (some 0) (some 0) true none .manual).1.store).filter
      (fun q => q.database_name == "B") =
    (({ store := [], clock := 0 } : AuditState)).store.filter
      (fun q => q.database_name == "B") :=
  C4_retention_bound_and_isolation.2.1 { store := [], clock := 0 } "A"
    "SELECT 1" (some 0) (some 0) true none .manual "B" (by decide)

end IDB
